import Mathlib

/-!
Verification of the Girona Neta report intake & dispatch pipeline.

Shallow embedding of the Supabase edge functions `create-report`,
`receive-reply`, `reverse-geocode`, the `submit-to-fcc` dispatch handler and
the Cloudflare email worker's quoted-printable decoder.  Database state is
modelled as explicit lists of rows, external collaborators (crypto, object
store, the FCC endpoint, Nominatim) as oracles supplied in an environment
record, and JS numbers as real numbers (for the trigonometric geofence) or
rationals (for the geocode rounding).
-/

namespace GiroTrash

/-- JS truthiness for an optional string field of a parsed JSON body:
`undefined`/`null` and the empty string are falsy. -/
def jsTruthy : Option String → Bool
  | none => false
  | some s => s ≠ ""

/-- JS `s || null` over an optional string field. -/
def jsOrNull (s : Option String) : Option String :=
  if jsTruthy s then s else none

/-- JS `s || d` over an optional string field with a string default. -/
def jsOrDefault (s : Option String) (d : String) : String :=
  match s with
  | none => d
  | some x => if x = "" then d else x

/-- JS `a || b` for two optional string values (empty string is falsy). -/
def jsOrOpt (a b : Option String) : Option String :=
  match a with
  | none => b
  | some s => if s = "" then b else some s

/-- Split a character list at every occurrence of a separator character. -/
def splitChars (sep : Char) : List Char → List (List Char)
  | [] => [[]]
  | c :: cs =>
    match splitChars sep cs with
    | [] => [[c]]
    | g :: gs => if c = sep then [] :: g :: gs else (c :: g) :: gs

/-- JS `String.prototype.split` with a one-character separator. -/
def jsSplit (sep : Char) (s : String) : List String :=
  (splitChars sep s.data).map String.mk

/-- JS `Array.prototype.join` with a string separator. -/
def jsJoin (sep : String) (l : List String) : String :=
  String.intercalate sep l

/-- Drop leading whitespace characters. -/
def trimLeftChars : List Char → List Char
  | [] => []
  | c :: cs => if c.isWhitespace then trimLeftChars cs else c :: cs

/-- JS `String.prototype.trim`. -/
def jsTrim (s : String) : String :=
  String.mk ((trimLeftChars (trimLeftChars s.data).reverse).reverse)

/-- JS `String.prototype.toLowerCase`. -/
def jsToLower (s : String) : String :=
  String.mk (s.data.map Char.toLower)

/-- JS `String.prototype.substring(0, n)`. -/
def jsSubstring (s : String) (n : ℕ) : String :=
  String.mk (s.data.take n)

/-- Report lifecycle status enum (`ReportStatus` in the source). -/
inductive RStatus where
  | pending_review
  | approved_sending
  | sent
  | replied
  | rejected
  | deleted
deriving DecidableEq, Repr

/-- A row of the `reports` table. -/
structure Report where
  id : String
  created_at : ℤ
  status : RStatus
  lat : ℝ
  lon : ℝ
  distance_to_girona_m : ℤ
  inside_service_area : Bool
  address_label : Option String
  description : Option String
  category : String
  ip_hash : String
  user_device_id : Option String
  fcc_incident_id : Option String
  last_error : Option String
  reply_text : Option String
  reply_from : Option String
  replied_at : Option ℤ
  sent_at : Option ℤ

/-- A row of the `report_media` table. -/
structure MediaRow where
  report_id : String
  storage_path : String
  mime_type : String
  compressed_bytes : ℤ
  width : ℤ
  height : ℤ
deriving DecidableEq, Repr

/-- The database state the pipeline reads and writes. -/
structure DbState where
  reports : List Report
  media : List MediaRow

/-! ## Geofence mathematics (`create-report` helpers) -/

/-- The `GIRONA_LAT` constant. -/
noncomputable def GIRONA_LAT : ℝ := 41.9794

/-- The `GIRONA_LON` constant. -/
noncomputable def GIRONA_LON : ℝ := 2.8214

/-- The `SERVICE_RADIUS_M` constant (as a real number of meters). -/
noncomputable def SERVICE_RADIUS_M : ℝ := 5000

/-- The `MAX_PHOTOS` constant. -/
def MAX_PHOTOS : ℤ := 5

/-- The `RATE_LIMIT_PER_HOUR` constant. -/
def RATE_LIMIT_PER_HOUR : ℕ := 10

/-- Function `toRad`: degrees to radians. -/
noncomputable def toRad (deg : ℝ) : ℝ := deg * Real.pi / 180

/-- JS builtin `Math.atan2 y x`, on real numbers; the signed-zero cases
of IEEE arithmetic are identified with zero. -/
noncomputable def atan2 (y x : ℝ) : ℝ :=
  if 0 < x then Real.arctan (y / x)
  else if x < 0 ∧ 0 ≤ y then Real.arctan (y / x) + Real.pi
  else if x < 0 ∧ y < 0 then Real.arctan (y / x) - Real.pi
  else if x = 0 ∧ 0 < y then Real.pi / 2
  else if x = 0 ∧ y < 0 then -(Real.pi / 2)
  else 0

/-- Function `haversineDistance` from `create-report/index.ts`. -/
noncomputable def haversineDistance (lat1 lon1 lat2 lon2 : ℝ) : ℝ :=
  let R : ℝ := 6371000
  let dLat := toRad (lat2 - lat1)
  let dLon := toRad (lon2 - lon1)
  let a := Real.sin (dLat / 2) ^ 2 +
    Real.cos (toRad lat1) * Real.cos (toRad lat2) * Real.sin (dLon / 2) ^ 2
  R * 2 * atan2 (Real.sqrt a) (Real.sqrt (1 - a))

/-- JS builtin `Math.round` on a real number: floor of `x + 1/2`. -/
noncomputable def jsRound (x : ℝ) : ℤ := ⌊x + 1 / 2⌋

/-! ## `create-report` edge function -/

/-- Parsed JSON body of a `create-report` request.  Absent fields are
`none`; `lat`, `lon`, `photo_count` are `none` when not a number. -/
structure CreateReq where
  lat : Option ℝ
  lon : Option ℝ
  description : Option String
  category : Option String
  photo_count : Option ℤ
  honeypot : Option String
  device_id : Option String

/-- Result of `storage.createSignedUploadUrl`. -/
structure SignedUrl where
  signedUrl : String
  token : String
deriving DecidableEq, Repr

/-- An element of the `upload_urls` array of a success response. -/
structure UploadUrl where
  path : String
  signed_url : String
  token : String
deriving DecidableEq, Repr

/-- Environment (external collaborators) of one `create-report` request:
the generated UUID, the SHA-256 hash of the caller's IP, the id assigned by
the database insert (`none` models an insert error), the signed-upload-URL
oracle (`none` models a storage error for that path), and the clock. -/
structure CREnv where
  uuid : String
  ipHash : String
  insertedId : Option String
  signUrl : String → Option SignedUrl
  now : ℤ

/-- Response of the `create-report` function. -/
inductive CRResp where
  | ok (report_id : String) (upload_urls : List UploadUrl)
  | err (msg : String) (status : ℕ)
deriving DecidableEq, Repr

/-- Storage path for photo `i` of report `rid`. -/
def mkPath (rid : String) (i : ℕ) : String := rid ++ "/" ++ toString i ++ ".jpg"

/-- The `report_media` placeholder row inserted for one photo. -/
def mkMediaRow (rid path : String) : MediaRow :=
  { report_id := rid, storage_path := path, mime_type := "image/jpeg",
    compressed_bytes := 0, width := 0, height := 0 }

/-- The signed-URL loop of `create-report`: for indices `i, i+1, ...` with
`n` iterations remaining, ask the storage oracle for a signed upload URL,
inserting a media placeholder row after each success.  Returns the inserted
media rows, and the accumulated upload URLs (`none` when some issuance
failed, in which case the rows are those inserted before the failure). -/
def signLoop (env : CREnv) (rid : String) : ℕ → ℕ → List MediaRow × Option (List UploadUrl)
  | 0, _ => ([], some [])
  | n + 1, i =>
    match env.signUrl (mkPath rid i) with
    | none => ([], none)
    | some su =>
      let rest := signLoop env rid n (i + 1)
      (mkMediaRow rid (mkPath rid i) :: rest.1,
       rest.2.map (fun urls =>
         { path := mkPath rid i, signed_url := su.signedUrl, token := su.token } :: urls))

/-- The rate-limit count: reports with the caller's IP hash created in the
trailing hour (3600000 ms). -/
def recentCount (env : CREnv) (db : DbState) : ℕ :=
  (db.reports.filter (fun r => r.ip_hash = env.ipHash ∧ env.now - 3600000 ≤ r.created_at)).length

/-- The report row inserted by `create-report`. -/
noncomputable def mkNewReport (env : CREnv) (req : CreateReq) (rid : String)
    (lat lon : ℝ) (c : String) : Report :=
  { id := rid, created_at := env.now, status := .pending_review,
    lat := lat, lon := lon,
    distance_to_girona_m := jsRound (haversineDistance lat lon GIRONA_LAT GIRONA_LON),
    inside_service_area := decide (haversineDistance lat lon GIRONA_LAT GIRONA_LON ≤ SERVICE_RADIUS_M),
    address_label := none, description := jsOrNull req.description, category := c,
    ip_hash := env.ipHash, user_device_id := jsOrNull req.device_id,
    fcc_incident_id := none, last_error := none,
    reply_text := none, reply_from := none, replied_at := none, sent_at := none }

open Classical in
/-- The `create-report` handler: honeypot branch, field validation,
geofence, rate limit, report insert, signed-URL loop.  Returns the HTTP
response and the resulting database state. -/
noncomputable def createReport (env : CREnv) (req : CreateReq) (db : DbState) :
    CRResp × DbState :=
  if jsTruthy req.honeypot then (.ok env.uuid [], db)
  else
    match req.lat with
    | none => (.err "Invalid latitude" 400, db)
    | some lat =>
      if lat < -90 ∨ 90 < lat then (.err "Invalid latitude" 400, db)
      else
        match req.lon with
        | none => (.err "Invalid longitude" 400, db)
        | some lon =>
          if lon < -180 ∨ 180 < lon then (.err "Invalid longitude" 400, db)
          else
            match req.photo_count with
            | none => (.err "photo_count must be 1-5" 400, db)
            | some pc =>
              if pc < 1 ∨ MAX_PHOTOS < pc then (.err "photo_count must be 1-5" 400, db)
              else
                match req.category with
                | none => (.err "category must be \"waste\" or \"litter\"" 400, db)
                | some c =>
                  if c ≠ "waste" ∧ c ≠ "litter" then
                    (.err "category must be \"waste\" or \"litter\"" 400, db)
                  else
                    let distance := haversineDistance lat lon GIRONA_LAT GIRONA_LON
                    let insideServiceArea : Bool := decide (distance ≤ SERVICE_RADIUS_M)
                    if ¬ insideServiceArea then
                      (.err "Location is outside the Girona service area" 400, db)
                    else if RATE_LIMIT_PER_HOUR ≤ recentCount env db then
                      (.err "Too many requests. Please try again later." 429, db)
                    else
                      match env.insertedId with
                      | none => (.err "Failed to create report" 500, db)
                      | some rid =>
                        let newReport := mkNewReport env req rid lat lon c
                        let loopOut := signLoop env rid pc.toNat 0
                        let db' : DbState :=
                          { reports := db.reports ++ [newReport],
                            media := db.media ++ loopOut.1 }
                        match loopOut.2 with
                        | none => (.err "Failed to generate upload URL" 500, db')
                        | some urls => (.ok rid urls, db')

/-! ## `receive-reply` edge function -/

/-- Environment of one `receive-reply` request: the configured shared
secret (`none` models an unset `REPLY_WEBHOOK_SECRET` env var), whether the
database update succeeds, and the clock. -/
structure RREnv where
  cfgSecret : Option String
  updateOk : Bool
  now : ℤ

/-- A `receive-reply` request: the `x-webhook-secret` header (`none` when
absent) and the parsed JSON payload fields. -/
structure RRReq where
  providedSecret : Option String
  report_id : Option String
  reply_text : Option String
  reply_from : Option String

/-- Response of the `receive-reply` function. -/
inductive RRResp where
  | ok (report_id : String)
  | err (msg : String) (status : ℕ)
deriving DecidableEq, Repr

/-- The field updates `receive-reply` applies to the matching report row:
reply text capped at 5000 characters, sender defaulted and capped at 200,
reply timestamp, and status moved to `replied` only from `sent`/`replied`. -/
def applyReply (env : RREnv) (req : RRReq) (t : String) (r : Report) : Report :=
  { r with
    reply_text := some (jsSubstring t 5000),
    reply_from := some (jsSubstring (jsOrDefault req.reply_from "unknown") 200),
    replied_at := some env.now,
    status := if r.status = .sent ∨ r.status = .replied then .replied else r.status }

/-- The `receive-reply` handler: secret configuration check, secret
comparison, payload validation, report lookup, conditional status rule,
row update. -/
def receiveReply (env : RREnv) (req : RRReq) (db : List Report) :
    RRResp × List Report :=
  match env.cfgSecret with
  | none => (.err "Webhook not configured" 500, db)
  | some secret =>
    if secret = "" then (.err "Webhook not configured" 500, db)
    else if req.providedSecret ≠ some secret then (.err "Unauthorized" 401, db)
    else
      match req.report_id with
      | none => (.err "report_id required" 400, db)
      | some rid =>
        if rid = "" then (.err "report_id required" 400, db)
        else
          match req.reply_text with
          | none => (.err "reply_text required" 400, db)
          | some t =>
            if t = "" then (.err "reply_text required" 400, db)
            else
              match db.find? (fun r => r.id = rid) with
              | none => (.err "Report not found" 404, db)
              | some _ =>
                if env.updateOk then
                  (.ok rid, db.map (fun r => if r.id = rid then applyReply env req t r else r))
                else (.err "Failed to update report" 500, db)

/-! ## `submit-to-fcc` edge function -/

/-- The shape of an FCC response body once parsed as JSON: the four fields
the handler reads, each possibly absent. -/
structure FccObj where
  id : Option String
  name : Option String
  altainc : Option String
  resultado : Option String
deriving DecidableEq, Repr

/-- An FCC response body: either raw text that fails to parse as JSON, or a
parsed JSON object. -/
inductive FccBody where
  | raw (text : String)
  | json (o : FccObj)
deriving DecidableEq, Repr

/-- An FCC HTTP response: status code and body. -/
structure FccHttp where
  status : ℕ
  body : FccBody
deriving DecidableEq, Repr

/-- Environment of one `submit-to-fcc` request: auth header presence, the
authenticated user's email (`none` models a token verification failure),
the `admin_users` allowlist lookup, the `ADMIN_EMAIL_ALLOWLIST` env var,
the storage download oracle, the FCC endpoint's response (`none` models a
thrown network error), and the clock. -/
structure FccEnv where
  authHeader : Option String
  userEmail : Option String
  adminEntryExists : Bool
  envAllowlist : String
  download : String → Option Unit
  fccResponse : Option FccHttp
  now : ℤ

/-- Response of the `submit-to-fcc` function. -/
inductive FccResp where
  | ok (fcc_incident_id : Option String)
  | err (msg : String) (status : ℕ)
deriving DecidableEq, Repr

/-- The `CATEGORY_MAP`: FCC type/option/ambit codes per category. -/
def CATEGORY_MAP : String → Option (String × String × String)
  | "waste" => some ("008", "202", "000")
  | "litter" => some ("009", "211", "000")
  | _ => none

/-- JS template interpolation of an optional string (`undefined` renders as
the text "undefined"). -/
def jsInterp : Option String → String
  | none => "undefined"
  | some s => s

/-- JS builtin `JSON.stringify` restricted to the four-field FCC object
shape. -/
def jsonStringifyFcc (o : FccObj) : String :=
  let field (k : String) (v : Option String) : List String :=
    match v with
    | none => []
    | some s => ["\"" ++ k ++ "\":\"" ++ s ++ "\""]
  "\x7b" ++ String.intercalate ","
    (field "id" o.id ++ field "name" o.name ++
     field "altainc" o.altainc ++ field "resultado" o.resultado) ++ "\x7d"

/-- Apply an update to every report row matching an id (the semantics of
`update(...).eq('id', rid)`). -/
def updateWhere (db : DbState) (rid : String) (f : Report → Report) : DbState :=
  { db with reports := db.reports.map (fun r => if r.id = rid then f r else r) }

/-- The `submit-to-fcc` handler: admin authentication, report load,
unconditional transition to `approved_sending`, photo download, category
mapping, FCC call, and the response-dependent terminal update. -/
def submitToFcc (env : FccEnv) (reqReportId : Option String) (db : DbState) :
    FccResp × DbState :=
  match env.authHeader with
  | none => (.err "Unauthorized: no auth header" 401, db)
  | some _ =>
    match env.userEmail with
    | none => (.err "Unauthorized: invalid token" 401, db)
    | some email =>
      let allowedEmails := (jsSplit ',' env.envAllowlist).map (fun e => jsToLower (jsTrim e))
      let isAdmin := env.adminEntryExists || allowedEmails.contains (jsToLower email)
      if ¬ isAdmin then (.err "Forbidden: not an admin" 403, db)
      else
        match reqReportId with
        | none => (.err "report_id required" 400, db)
        | some rid =>
          if rid = "" then (.err "report_id required" 400, db)
          else
            match db.reports.find? (fun r => r.id = rid) with
            | none => (.err "Report not found" 404, db)
            | some report =>
              let db1 := updateWhere db rid (fun r => { r with status := .approved_sending })
              let reportMedia := db.media.filter (fun m => m.report_id = rid)
              let photoBlob : Option Unit :=
                match reportMedia with
                | [] => none
                | m :: _ => env.download m.storage_path
              match photoBlob with
              | none =>
                (.err "No photo available for submission" 400,
                 updateWhere db1 rid (fun r =>
                   { r with status := .pending_review,
                            last_error := some "No photo available for FCC submission" }))
              | some _ =>
                match CATEGORY_MAP report.category with
                | none =>
                  (.err ("Invalid category: " ++ report.category) 400,
                   updateWhere db1 rid (fun r =>
                     { r with status := .pending_review,
                              last_error := some ("Invalid category: " ++ report.category) }))
                | some _ =>
                  match env.fccResponse with
                  | none => (.err "Internal server error" 500, db1)
                  | some resp =>
                    match resp.body with
                    | .raw text =>
                      (.err ("FCC submission failed: " ++ jsSubstring text 200) 502,
                       updateWhere db1 rid (fun r =>
                         { r with status := .pending_review,
                                  last_error := some ("FCC error (" ++ toString resp.status ++
                                    "): " ++ jsSubstring text 200) }))
                    | .json o =>
                      if o.id = some "E000" then
                        (.err ("FCC submission failed: " ++ jsInterp o.name) 502,
                         updateWhere db1 rid (fun r =>
                           { r with status := .pending_review,
                                    last_error := some ("FCC error: " ++
                                      jsOrDefault o.name (jsonStringifyFcc o)) }))
                      else
                        let fccIncidentId := jsOrOpt o.altainc (jsOrOpt o.resultado none)
                        (.ok fccIncidentId,
                         updateWhere db1 rid (fun r =>
                           { r with status := .sent,
                                    fcc_incident_id := fccIncidentId,
                                    sent_at := some env.now,
                                    last_error := none }))

/-! ## `reverse-geocode` edge function -/

/-- A row of the `geocode_cache` table. -/
structure GeoEntry where
  rounded_lat : ℚ
  rounded_lon : ℚ
  address_label : String
  updated_at : ℤ
deriving DecidableEq, Repr

/-- Environment of one `reverse-geocode` request: the Nominatim response —
outer `none` models a non-OK HTTP response (or a thrown fetch error), the
inner option is the presence of `display_name` in the JSON — and the
clock. -/
structure GeoEnv where
  upstream : Option (Option String)
  now : ℤ

/-- Response of the `reverse-geocode` function. -/
inductive GeoResp where
  | ok (address_label : String)
  | err (msg : String) (status : ℕ)
deriving DecidableEq, Repr

/-- JS `Math.round` on a rational (half rounds up via `floor (x + 1/2)`). -/
def jsRoundQ (x : ℚ) : ℤ := ⌊x + 1 / 2⌋

/-- Function `roundTo` from `reverse-geocode/index.ts`. -/
def roundTo (num : ℚ) (decimals : ℕ) : ℚ :=
  let factor : ℚ := 10 ^ decimals
  jsRoundQ (num * factor) / factor

/-- The `CACHE_DECIMALS` constant. -/
def CACHE_DECIMALS : ℕ := 5

/-- The address label derived from a Nominatim `display_name`: first three
comma-separated segments, re-joined and trimmed. -/
def displayNameLabel : Option String → String
  | none => ""
  | some d => jsTrim (jsJoin ", " ((jsSplit ',' d).take 3))

/-- Upsert into the geocode cache, keyed by the rounded coordinates. -/
def geoUpsert (cache : List GeoEntry) (e : GeoEntry) : List GeoEntry :=
  if cache.any (fun x => x.rounded_lat = e.rounded_lat ∧ x.rounded_lon = e.rounded_lon) then
    cache.map (fun x =>
      if x.rounded_lat = e.rounded_lat ∧ x.rounded_lon = e.rounded_lon then e else x)
  else cache ++ [e]

/-- The `reverse-geocode` handler: input validation, cache lookup, upstream
call on miss, label extraction, conditional cache upsert.  The third result
component records whether an upstream call was issued. -/
def reverseGeocode (env : GeoEnv) (lat lon : Option ℚ) (cache : List GeoEntry) :
    GeoResp × List GeoEntry × Bool :=
  match lat, lon with
  | some lat, some lon =>
    let roundedLat := roundTo lat CACHE_DECIMALS
    let roundedLon := roundTo lon CACHE_DECIMALS
    match cache.find? (fun e => e.rounded_lat = roundedLat ∧ e.rounded_lon = roundedLon) with
    | some cached => (.ok cached.address_label, cache, false)
    | none =>
      match env.upstream with
      | none => (.ok "", cache, true)
      | some displayName =>
        let addressLabel := displayNameLabel displayName
        if addressLabel ≠ "" then
          (.ok addressLabel,
           geoUpsert cache
             { rounded_lat := roundedLat, rounded_lon := roundedLon,
               address_label := addressLabel, updated_at := env.now },
           true)
        else (.ok addressLabel, cache, true)
  | _, _ => (.err "Invalid lat/lon" 400, cache, false)

/-! ## Quoted-printable decoding (Cloudflare email worker) -/

/-- First pass of `decodeQuotedPrintable`: remove soft line breaks, the
global replacement of `=\r?\n` by the empty string, over a string viewed as
its list of code units. -/
def removeSoftBreaks : List ℕ → List ℕ
  | 61 :: 13 :: 10 :: rest => removeSoftBreaks rest
  | 61 :: 10 :: rest => removeSoftBreaks rest
  | c :: rest => c :: removeSoftBreaks rest
  | [] => []

/-- Is a code unit an ASCII hex digit (`[0-9A-Fa-f]`)? -/
def isHexUnit (c : ℕ) : Bool :=
  (48 ≤ c ∧ c ≤ 57) ∨ (65 ≤ c ∧ c ≤ 70) ∨ (97 ≤ c ∧ c ≤ 102)

/-- Value of an ASCII hex digit code unit. -/
def hexVal (c : ℕ) : ℕ :=
  if c ≤ 57 then c - 48 else if c ≤ 70 then c - 55 else c - 87

/-- Second pass of `decodeQuotedPrintable`: the global replacement of
`=XX` hex escapes by `String.fromCharCode(parseInt(XX, 16))`. -/
def decodeHexEscapes : List ℕ → List ℕ
  | 61 :: a :: b :: rest =>
    if isHexUnit a ∧ isHexUnit b then (16 * hexVal a + hexVal b) :: decodeHexEscapes rest
    else 61 :: decodeHexEscapes (a :: b :: rest)
  | c :: rest => c :: decodeHexEscapes rest
  | [] => []

/-- Function `decodeQuotedPrintable` from the email worker: soft-break removal then
hex-escape decoding, in source order. -/
def decodeQuotedPrintable (s : List ℕ) : List ℕ :=
  decodeHexEscapes (removeSoftBreaks s)

/-! ## Concrete fixtures for witnesses and counterexamples -/

/-- A report row with neutral coordinates, for concrete scenarios. -/
noncomputable def mkTestReport (id : String) (st : RStatus) : Report :=
  { id := id, created_at := 0, status := st, lat := 0, lon := 0,
    distance_to_girona_m := 0, inside_service_area := true,
    address_label := none, description := none, category := "waste",
    ip_hash := "h", user_device_id := none, fcc_incident_id := none,
    last_error := none, reply_text := none, reply_from := none,
    replied_at := none, sent_at := none }

/-- Geocode environment whose upstream call fails (non-OK response). -/
def geoEnvFail : GeoEnv := { upstream := none, now := 0 }

/-- Geocode environment whose upstream call succeeds with a four-segment
display name. -/
def geoEnvOk : GeoEnv := { upstream := some (some "A,B,C,D"), now := 5 }

/-- A database with one `sent` and one `rejected` report. -/
noncomputable def dbC7 : List Report :=
  [mkTestReport "rs" .sent, mkTestReport "rx" .rejected]

/-- Reply-ingestion environment with configured secret `sec`. -/
def envC7 : RREnv := { cfgSecret := some "sec", updateOk := true, now := 7 }

/-- Authenticated reply to report `rs`. -/
def reqC7 : RRReq :=
  { providedSecret := some "sec", report_id := some "rs",
    reply_text := some "hola", reply_from := some "fcc@example.com" }

/-- Authenticated reply to the `rejected` report `rx`. -/
def reqC7x : RRReq :=
  { providedSecret := some "sec", report_id := some "rx",
    reply_text := some "hola", reply_from := some "fcc@example.com" }

/-- Authenticated reply to a nonexistent report `zz`. -/
def reqC7z : RRReq :=
  { providedSecret := some "sec", report_id := some "zz",
    reply_text := some "hola", reply_from := some "fcc@example.com" }

/-- A second, repeated reply to report `rs` with different text and no
sender. -/
def reqC7b : RRReq :=
  { providedSecret := some "sec", report_id := some "rs",
    reply_text := some "adeu", reply_from := none }

/-- Dispatch database: one `pending_review` report `r1` with one media
row. -/
noncomputable def dbC4 : DbState :=
  { reports := [mkTestReport "r1" .pending_review],
    media := [mkMediaRow "r1" "r1/0.jpg"] }

/-- Dispatch database: one `rejected` report `r2` with one media row. -/
noncomputable def dbC2 : DbState :=
  { reports := [mkTestReport "r2" .rejected],
    media := [mkMediaRow "r2" "r2/0.jpg"] }

/-- Dispatch database: one `deleted` report `r3` with one media row. -/
noncomputable def dbC2d : DbState :=
  { reports := [mkTestReport "r3" .deleted],
    media := [mkMediaRow "r3" "r3/0.jpg"] }

/-- Admin-authenticated dispatch environment parameterized by the FCC
response. -/
def mkFccEnv (resp : Option FccHttp) : FccEnv :=
  { authHeader := some "Bearer tok", userEmail := some "admin@example.com",
    adminEntryExists := true, envAllowlist := "", download := fun _ => some (),
    fccResponse := resp, now := 9 }

/-- The empty database. -/
def db0 : DbState := { reports := [], media := [] }

/-- Environment of a honeypot submission. -/
def envC6 : CREnv :=
  { uuid := "hp-uuid", ipHash := "h", insertedId := none,
    signUrl := fun _ => none, now := 0 }

/-- A bot submission: honeypot filled, other fields invalid. -/
def reqC6 : CreateReq :=
  { lat := none, lon := none, description := none, category := none,
    photo_count := none, honeypot := some "bot", device_id := none }

/-- Environment whose second signed-URL issuance fails. -/
def envC3 : CREnv :=
  { uuid := "u", ipHash := "h", insertedId := some "r1",
    signUrl := fun p => if p = "r1/0.jpg" then some ⟨"su", "tok"⟩ else none,
    now := 0 }

/-- A valid two-photo request at the Girona reference point. -/
noncomputable def reqC3 : CreateReq :=
  { lat := some GIRONA_LAT, lon := some GIRONA_LON, description := none,
    category := some "waste", photo_count := some 2, honeypot := none,
    device_id := none }

/-- Environment where everything succeeds (for admissions). -/
def envC5 : CREnv :=
  { uuid := "u5", ipHash := "h5", insertedId := some "r5",
    signUrl := fun _ => some ⟨"su", "tok"⟩, now := 0 }

/-- A valid one-photo request at the Girona reference point. -/
noncomputable def reqC5near : CreateReq :=
  { lat := some GIRONA_LAT, lon := some GIRONA_LON, description := none,
    category := some "litter", photo_count := some 1, honeypot := none,
    device_id := none }

/-- A valid one-photo request at Girona's latitude and the antipodal
longitude (far outside the service area). -/
noncomputable def reqC5far : CreateReq :=
  { lat := some GIRONA_LAT, lon := some (GIRONA_LON - 180), description := none,
    category := some "waste", photo_count := some 1, honeypot := none,
    device_id := none }

/-! ## Helper lemmas -/

/-- A string with a nonempty left part of an append is nonempty. -/
theorem append_ne_empty_left (s t : String) (h : s.length ≠ 0) : s ++ t ≠ "" := by
  intro he
  have h2 : (s ++ t).length = 0 := by rw [he]; rfl
  rw [String.length_append] at h2
  omega

/-- If nothing in a list satisfies a predicate, `any` is false. -/
theorem any_eq_false_of_find?_eq_none {α} {p : α → Bool} {l : List α}
    (h : l.find? p = none) : l.any p = false := by
  rw [List.any_eq_false]
  intro x hx
  exact List.find?_eq_none.mp h x hx

/-- Appending a matching element to a list with no match makes `find?`
return it. -/
theorem find?_append_some {α} (p : α → Bool) (l : List α) (e : α)
    (h : l.find? p = none) (he : p e = true) : (l ++ [e]).find? p = some e := by
  induction l with
  | nil => simp [List.find?, he]
  | cons a as ih =>
    rw [List.cons_append]
    cases hpa : p a with
    | true => simp [List.find?, hpa] at h
    | false =>
      simp only [List.find?, hpa] at h ⊢
      exact ih h

/-- Looking an entry up right after upserting it succeeds, provided the key
was not present before. -/
theorem find?_geoUpsert (cache : List GeoEntry) (qlat qlon : ℚ) (lbl : String) (ts : ℤ)
    (h : cache.find? (fun x => x.rounded_lat = qlat ∧ x.rounded_lon = qlon) = none) :
    (geoUpsert cache ⟨qlat, qlon, lbl, ts⟩).find?
      (fun x => x.rounded_lat = qlat ∧ x.rounded_lon = qlon) = some ⟨qlat, qlon, lbl, ts⟩ := by
  have hany := any_eq_false_of_find?_eq_none h
  unfold geoUpsert
  dsimp only
  rw [hany, if_neg (by simp : ¬ (false = true))]
  exact find?_append_some _ cache _ h (by simp)

/-- Claim C9: quoted-printable decoding turns `caf=C3=A9` into the byte
sequence of café in UTF-8 (the `=C3` and `=A9` escapes become the bytes
0xC3 and 0xA9), and removes a soft line break (`=` before a CRLF or LF line
end) without inserting any whitespace. -/
theorem c9_quoted_printable :
    decodeQuotedPrintable [99, 97, 102, 61, 67, 51, 61, 65, 57] = [99, 97, 102, 0xC3, 0xA9] ∧
    decodeQuotedPrintable [97, 98, 61, 13, 10, 99, 100] = [97, 98, 99, 100] ∧
    decodeQuotedPrintable [97, 98, 61, 10, 99, 100] = [97, 98, 99, 100] := by
  refine ⟨by decide, by decide, by decide⟩

/-- Claim C8 counterexample: with a failing upstream, two lookups for the
same coordinates both issue an upstream call (the failure is not cached),
so two same-key lookups are not limited to one upstream call. -/
theorem c8_counterexample :
    (reverseGeocode geoEnvFail (some 1) (some 1) []).2.2 = true ∧
    (reverseGeocode geoEnvFail (some 1) (some 1) []).1 = .ok "" ∧
    (reverseGeocode geoEnvFail (some 1) (some 1)
      (reverseGeocode geoEnvFail (some 1) (some 1) []).2.1).2.2 = true := by
  refine ⟨rfl, rfl, rfl⟩

/-- Claim C8 (amended): when the first lookup misses the cache and its
upstream call succeeds with a display name giving a nonempty label, a
second lookup for coordinates with the same rounded key is served from the
cache with no upstream call; an upstream failure on a cache miss yields an
empty label in a success response (never an error status) and leaves the
cache unchanged. -/
theorem c8_geocode_cache (env1 : GeoEnv) (lat1 lon1 lat2 lon2 : ℚ)
    (cache : List GeoEntry) (dn : Option String)
    (hmiss : cache.find? (fun e => e.rounded_lat = roundTo lat1 CACHE_DECIMALS ∧
      e.rounded_lon = roundTo lon1 CACHE_DECIMALS) = none)
    (hup : env1.upstream = some dn)
    (hlabel : displayNameLabel dn ≠ "")
    (hlat : roundTo lat2 CACHE_DECIMALS = roundTo lat1 CACHE_DECIMALS)
    (hlon : roundTo lon2 CACHE_DECIMALS = roundTo lon1 CACHE_DECIMALS) :
    (reverseGeocode env1 (some lat1) (some lon1) cache).2.2 = true ∧
    (reverseGeocode env1 (some lat1) (some lon1) cache).1 = .ok (displayNameLabel dn) ∧
    (∀ env2 : GeoEnv,
      reverseGeocode env2 (some lat2) (some lon2)
        (reverseGeocode env1 (some lat1) (some lon1) cache).2.1 =
      (.ok (displayNameLabel dn), (reverseGeocode env1 (some lat1) (some lon1) cache).2.1, false)) ∧
    (∀ (envF : GeoEnv) (lat lon : ℚ) (c : List GeoEntry),
      envF.upstream = none →
      c.find? (fun e => e.rounded_lat = roundTo lat CACHE_DECIMALS ∧
        e.rounded_lon = roundTo lon CACHE_DECIMALS) = none →
      reverseGeocode envF (some lat) (some lon) c = (.ok "", c, true)) := by
  have hout : reverseGeocode env1 (some lat1) (some lon1) cache =
      (.ok (displayNameLabel dn),
       geoUpsert cache
         ⟨roundTo lat1 CACHE_DECIMALS, roundTo lon1 CACHE_DECIMALS,
          displayNameLabel dn, env1.now⟩,
       true) := by
    unfold reverseGeocode
    dsimp only
    rw [hmiss]
    dsimp only
    rw [hup]
    dsimp only
    rw [if_pos hlabel]
  refine ⟨by rw [hout], by rw [hout], ?_, ?_⟩
  · intro env2
    rw [hout]
    unfold reverseGeocode
    dsimp only
    rw [hlat, hlon, find?_geoUpsert cache _ _ _ _ hmiss]
  · intro envF lat lon c hF hm
    unfold reverseGeocode
    dsimp only
    rw [hm]
    dsimp only
    rw [hF]

/-- Witness for claim C8 (amended): a successful lookup at one coordinate
pair, then a second lookup at a pair rounding to the same 5-decimal key
with a *failing* upstream, served from cache with no upstream call; and a
failing lookup on an empty cache returning an empty label. -/
theorem c8_witness :
    (reverseGeocode geoEnvOk (some 41.980011) (some 2.82001) []).2.2 = true ∧
    (reverseGeocode geoEnvOk (some 41.980011) (some 2.82001) []).1 = .ok "A, B, C" ∧
    reverseGeocode geoEnvFail (some 41.980013) (some 2.82001)
        (reverseGeocode geoEnvOk (some 41.980011) (some 2.82001) []).2.1 =
      (.ok "A, B, C", (reverseGeocode geoEnvOk (some 41.980011) (some 2.82001) []).2.1, false) ∧
    reverseGeocode geoEnvFail (some 1) (some 1) [] = (.ok "", [], true) := by
  have h := c8_geocode_cache geoEnvOk 41.980011 2.82001 41.980013 2.82001 []
    (some "A,B,C,D") rfl rfl (by decide)
    (by norm_num [roundTo, jsRoundQ, CACHE_DECIMALS]) rfl
  refine ⟨h.1, ?_, ?_, h.2.2.2 geoEnvFail 1 1 [] rfl rfl⟩
  · rw [h.2.1]; rfl
  · rw [h.2.2.1 geoEnvFail]; rfl

/-- Searching by id after a per-id update returns the updated row. -/
theorem find?_update (l : List Report) (rid : String) (f : Report → Report)
    (hf : ∀ r, (f r).id = r.id) (r : Report)
    (h : l.find? (fun x => x.id = rid) = some r) :
    (l.map (fun x => if x.id = rid then f x else x)).find? (fun x => x.id = rid) =
      some (f r) := by
  have hr : r.id = rid := by
    have h2 := List.find?_some h
    simpa using h2
  have hcomp : ((fun x : Report => decide (x.id = rid)) ∘
      (fun x => if x.id = rid then f x else x)) = (fun x : Report => decide (x.id = rid)) := by
    funext x
    by_cases hx : x.id = rid
    · simp [hx, hf]
    · simp [hx]
  rw [List.find?_map, hcomp, h]
  simp [hr]

/-- Claim C10: the reply-ingestion endpoint fails closed: an unset (or
empty) configured secret rejects every request with a 500 before the
payload is consulted, and a provided secret differing from the configured
one is rejected with a 401; in both cases the database state is returned
unchanged (the response does not depend on the payload or the database). -/
theorem c10_reply_secret (env : RREnv) (req : RRReq) (db : List Report) :
    ((env.cfgSecret = none ∨ env.cfgSecret = some "") →
      receiveReply env req db = (.err "Webhook not configured" 500, db)) ∧
    (∀ s : String, env.cfgSecret = some s → s ≠ "" → req.providedSecret ≠ some s →
      receiveReply env req db = (.err "Unauthorized" 401, db)) := by
  constructor
  · rintro (h | h)
    · unfold receiveReply
      rw [h]
    · unfold receiveReply
      rw [h]
      dsimp only
      rw [if_pos rfl]
  · intro s hs hne hneq
    unfold receiveReply
    rw [hs]
    dsimp only
    rw [if_neg hne, if_pos hneq]

/-- Witness for claim C10: concrete rejections for an unset secret, an
empty secret, and a wrong provided secret, each leaving the database
unchanged. -/
theorem c10_witness :
    receiveReply ⟨none, true, 0⟩ ⟨some "x", some "r", some "t", none⟩ [] =
      (.err "Webhook not configured" 500, []) ∧
    receiveReply ⟨some "", true, 0⟩ ⟨some "x", some "r", some "t", none⟩ [] =
      (.err "Webhook not configured" 500, []) ∧
    receiveReply ⟨some "sec", true, 0⟩ ⟨some "wrong", some "r", some "t", none⟩ [] =
      (.err "Unauthorized" 401, []) := by
  refine ⟨(c10_reply_secret _ _ _).1 (Or.inl rfl),
          (c10_reply_secret _ _ _).1 (Or.inr rfl),
          (c10_reply_secret _ _ _).2 "sec" rfl (by decide) (by decide)⟩

/-- Claim C7: with a correctly authenticated reply-ingestion request, an
unknown report id fails with a 404 and leaves the database unchanged; a
known report gets the capped reply text, the defaulted and capped sender,
and the reply timestamp stored, and its status becomes `replied` exactly
when the prior status was `sent` or `replied`, and is otherwise left
unchanged. -/
theorem c7_reply_ingestion (env : RREnv) (req : RRReq) (db : List Report)
    (secret rid t : String)
    (hcfg : env.cfgSecret = some secret) (hsne : secret ≠ "")
    (hps : req.providedSecret = some secret)
    (hrid : req.report_id = some rid) (hridne : rid ≠ "")
    (ht : req.reply_text = some t) (htne : t ≠ "")
    (hupd : env.updateOk = true) :
    (db.find? (fun r => r.id = rid) = none →
      receiveReply env req db = (.err "Report not found" 404, db)) ∧
    (∀ r, db.find? (fun r => r.id = rid) = some r →
      (receiveReply env req db).1 = .ok rid ∧
      (receiveReply env req db).2.find? (fun x => x.id = rid) =
        some { r with
          reply_text := some (jsSubstring t 5000),
          reply_from := some (jsSubstring (jsOrDefault req.reply_from "unknown") 200),
          replied_at := some env.now,
          status := if r.status = .sent ∨ r.status = .replied then .replied else r.status }) := by
  have hred : receiveReply env req db =
      (match db.find? (fun r => r.id = rid) with
       | none => (.err "Report not found" 404, db)
       | some _ => (.ok rid, db.map (fun r => if r.id = rid then applyReply env req t r else r))) := by
    unfold receiveReply
    rw [hcfg]
    dsimp only
    rw [if_neg hsne, hps, if_neg (fun h => h rfl), hrid]
    dsimp only
    rw [if_neg hridne, ht]
    dsimp only
    rw [if_neg htne, hupd]
    simp only [eq_self_iff_true, if_true]
  constructor
  · intro hnone
    rw [hred, hnone]
  · intro r hfind
    rw [hred, hfind]
    dsimp only
    exact ⟨rfl, find?_update db rid (applyReply env req t) (fun x => rfl) r hfind⟩

/-- Witness for claim C7: on a two-report database, an unknown id 404s
with no change; a reply to a `sent` report stores text/sender/timestamp and
moves it to `replied`; a reply to a `rejected` report stores the fields but
leaves the status; a repeated reply to the now-`replied` report keeps
status `replied` and overwrites the text. -/
theorem c7_witness :
    receiveReply envC7 reqC7z dbC7 = (.err "Report not found" 404, dbC7) ∧
    (receiveReply envC7 reqC7 dbC7).1 = .ok "rs" ∧
    ((receiveReply envC7 reqC7 dbC7).2.find? (fun x => x.id = "rs")).map Report.status =
      some .replied ∧
    ((receiveReply envC7 reqC7 dbC7).2.find? (fun x => x.id = "rs")).map Report.reply_text =
      some (some "hola") ∧
    ((receiveReply envC7 reqC7 dbC7).2.find? (fun x => x.id = "rs")).map Report.reply_from =
      some (some "fcc@example.com") ∧
    ((receiveReply envC7 reqC7x dbC7).2.find? (fun x => x.id = "rx")).map Report.status =
      some .rejected ∧
    ((receiveReply envC7 reqC7x dbC7).2.find? (fun x => x.id = "rx")).map Report.reply_text =
      some (some "hola") ∧
    ((receiveReply envC7 reqC7b (receiveReply envC7 reqC7 dbC7).2).2.find?
        (fun x => x.id = "rs")).map Report.status = some .replied ∧
    ((receiveReply envC7 reqC7b (receiveReply envC7 reqC7 dbC7).2).2.find?
        (fun x => x.id = "rs")).map Report.reply_text = some (some "adeu") := by
  have h1 := c7_reply_ingestion envC7 reqC7z dbC7 "sec" "zz" "hola"
    rfl (by decide) rfl rfl (by decide) rfl (by decide) rfl
  have h2 := c7_reply_ingestion envC7 reqC7 dbC7 "sec" "rs" "hola"
    rfl (by decide) rfl rfl (by decide) rfl (by decide) rfl
  have h3 := c7_reply_ingestion envC7 reqC7x dbC7 "sec" "rx" "hola"
    rfl (by decide) rfl rfl (by decide) rfl (by decide) rfl
  have h2f := h2.2 (mkTestReport "rs" .sent) rfl
  have h3f := h3.2 (mkTestReport "rx" .rejected) rfl
  have h4 := c7_reply_ingestion envC7 reqC7b ((receiveReply envC7 reqC7 dbC7).2) "sec" "rs" "adeu"
    rfl (by decide) rfl rfl (by decide) rfl (by decide) rfl
  have h4f := h4.2 _ h2f.2
  refine ⟨h1.1 rfl, h2f.1, ?_, ?_, ?_, ?_, ?_, ?_, ?_⟩
  · rw [h2f.2]; rfl
  · rw [h2f.2]; rfl
  · rw [h2f.2]; rfl
  · rw [h3f.2]; rfl
  · rw [h3f.2]; rfl
  · rw [h4f.2]; rfl
  · rw [h4f.2]; rfl

/-- Reduction of `submitToFcc` past authentication, report load, photo
download and category mapping: the outcome is determined by the FCC
response. -/
theorem submitToFcc_afterLoad (env : FccEnv) (rid : String) (db : DbState)
    (report : Report) (m : MediaRow) (rest : List MediaRow)
    (ah email : String) (cfg : String × String × String)
    (h1 : env.authHeader = some ah) (h2 : env.userEmail = some email)
    (h3 : env.adminEntryExists = true) (h4 : rid ≠ "")
    (h5 : db.reports.find? (fun r => r.id = rid) = some report)
    (h6 : db.media.filter (fun x => x.report_id = rid) = m :: rest)
    (h7 : env.download m.storage_path = some ())
    (h8 : CATEGORY_MAP report.category = some cfg) :
    submitToFcc env (some rid) db =
      (match env.fccResponse with
       | none =>
         (.err "Internal server error" 500,
          updateWhere db rid (fun r => { r with status := .approved_sending }))
       | some resp =>
         match resp.body with
         | .raw text =>
           (.err ("FCC submission failed: " ++ jsSubstring text 200) 502,
            updateWhere (updateWhere db rid (fun r => { r with status := .approved_sending }))
              rid (fun r =>
                { r with status := .pending_review,
                         last_error := some ("FCC error (" ++ toString resp.status ++
                           "): " ++ jsSubstring text 200) }))
         | .json o =>
           if o.id = some "E000" then
             (.err ("FCC submission failed: " ++ jsInterp o.name) 502,
              updateWhere (updateWhere db rid (fun r => { r with status := .approved_sending }))
                rid (fun r =>
                  { r with status := .pending_review,
                           last_error := some ("FCC error: " ++
                             jsOrDefault o.name (jsonStringifyFcc o)) }))
           else
             (.ok (jsOrOpt o.altainc (jsOrOpt o.resultado none)),
              updateWhere (updateWhere db rid (fun r => { r with status := .approved_sending }))
                rid (fun r =>
                  { r with status := .sent,
                           fcc_incident_id := jsOrOpt o.altainc (jsOrOpt o.resultado none),
                           sent_at := some env.now,
                           last_error := none }))) := by
  unfold submitToFcc
  rw [h1]
  dsimp only
  rw [h2]
  dsimp only
  rw [h3]
  simp only [Bool.true_or]
  rw [if_neg (fun hc => hc trivial)]
  rw [if_neg h4, h5]
  dsimp only
  rw [h6]
  dsimp only
  rw [h7]
  dsimp only
  rw [h8]

/-- Claim C4: when the FCC response parses as JSON and lacks the `E000`
error-id marker, dispatch succeeds: the response is `ok` carrying the
incident id taken from `altainc` or, failing that, `resultado`; the report
moves to `sent` with that id stored in `fcc_incident_id`, the dispatch
timestamp recorded, and `last_error` cleared. -/
theorem c4_dispatch_success (env : FccEnv) (rid : String) (db : DbState)
    (report : Report) (m : MediaRow) (rest : List MediaRow)
    (ah email : String) (cfg : String × String × String) (o : FccObj) (st : ℕ)
    (h1 : env.authHeader = some ah) (h2 : env.userEmail = some email)
    (h3 : env.adminEntryExists = true) (h4 : rid ≠ "")
    (h5 : db.reports.find? (fun r => r.id = rid) = some report)
    (h6 : db.media.filter (fun x => x.report_id = rid) = m :: rest)
    (h7 : env.download m.storage_path = some ())
    (h8 : CATEGORY_MAP report.category = some cfg)
    (h9 : env.fccResponse = some ⟨st, .json o⟩)
    (h10 : ¬ o.id = some "E000") :
    (submitToFcc env (some rid) db).1 = .ok (jsOrOpt o.altainc (jsOrOpt o.resultado none)) ∧
    ∃ r', (submitToFcc env (some rid) db).2.reports.find? (fun x => x.id = rid) = some r' ∧
      r'.status = .sent ∧
      r'.fcc_incident_id = jsOrOpt o.altainc (jsOrOpt o.resultado none) ∧
      r'.sent_at = some env.now ∧
      r'.last_error = none := by
  rw [submitToFcc_afterLoad env rid db report m rest ah email cfg h1 h2 h3 h4 h5 h6 h7 h8, h9]
  dsimp only
  rw [if_neg h10]
  refine ⟨rfl, ?_⟩
  have u1 := find?_update db.reports rid
    (fun r => { r with status := .approved_sending }) (fun x => rfl) report h5
  have u2 := find?_update _ rid
    (fun r => { r with status := .sent,
                       fcc_incident_id := jsOrOpt o.altainc (jsOrOpt o.resultado none),
                       sent_at := some env.now, last_error := none })
    (fun x => rfl) _ u1
  exact ⟨_, u2, rfl, rfl, rfl, rfl⟩

/-- Witness for claim C4: the spec's example — a 200 JSON response with
incident id `12345` under `altainc` yields `sent` with
`fcc_incident_id = "12345"`; a response carrying the id only under
`resultado` also succeeds with that id. -/
theorem c4_witness :
    (submitToFcc (mkFccEnv (some ⟨200, .json ⟨none, none, some "12345", none⟩⟩))
      (some "r1") dbC4).1 = .ok (some "12345") ∧
    (∃ r', (submitToFcc (mkFccEnv (some ⟨200, .json ⟨none, none, some "12345", none⟩⟩))
        (some "r1") dbC4).2.reports.find? (fun x => x.id = "r1") = some r' ∧
      r'.status = .sent ∧ r'.fcc_incident_id = some "12345" ∧
      r'.sent_at = some 9 ∧ r'.last_error = none) ∧
    (submitToFcc (mkFccEnv (some ⟨204, .json ⟨none, none, none, some "99"⟩⟩))
      (some "r1") dbC4).1 = .ok (some "99") := by
  have h := c4_dispatch_success (mkFccEnv (some ⟨200, .json ⟨none, none, some "12345", none⟩⟩))
    "r1" dbC4 (mkTestReport "r1" .pending_review) (mkMediaRow "r1" "r1/0.jpg") []
    "Bearer tok" "admin@example.com" ("008", "202", "000")
    ⟨none, none, some "12345", none⟩ 200
    rfl rfl rfl (by decide) rfl rfl rfl rfl rfl (by decide)
  have h2 := c4_dispatch_success (mkFccEnv (some ⟨204, .json ⟨none, none, none, some "99"⟩⟩))
    "r1" dbC4 (mkTestReport "r1" .pending_review) (mkMediaRow "r1" "r1/0.jpg") []
    "Bearer tok" "admin@example.com" ("008", "202", "000")
    ⟨none, none, none, some "99"⟩ 204
    rfl rfl rfl (by decide) rfl rfl rfl rfl rfl (by decide)
  refine ⟨h.1.trans rfl, ?_, h2.1.trans rfl⟩
  obtain ⟨r', hf, hs, hq, hsent, herr⟩ := h.2
  exact ⟨r', hf, hs, hq.trans rfl, hsent.trans rfl, herr⟩

/-- Claim C1 counterexample: a non-2xx HTTP status is not treated as a
dispatch failure — a status-500 response whose body parses as JSON without
the error marker makes the dispatch succeed and the report end in `sent`;
moreover a thrown network error (modelled as no response) is a failed
dispatch that leaves the report in `approved_sending` with no last error,
not in `pending_review`. -/
theorem c1_counterexample :
    (submitToFcc (mkFccEnv (some ⟨500, .json ⟨none, none, some "X", none⟩⟩))
      (some "r1") dbC4).1 = .ok (some "X") ∧
    (submitToFcc (mkFccEnv (some ⟨500, .json ⟨none, none, some "X", none⟩⟩))
      (some "r1") dbC4).2.reports.map Report.status = [.sent] ∧
    (submitToFcc (mkFccEnv none) (some "r1") dbC4).1 = .err "Internal server error" 500 ∧
    (submitToFcc (mkFccEnv none) (some "r1") dbC4).2.reports.map Report.status =
      [.approved_sending] ∧
    (submitToFcc (mkFccEnv none) (some "r1") dbC4).2.reports.map Report.last_error = [none] := by
  exact ⟨rfl, rfl, rfl, rfl, rfl⟩

/-- Claim C1 (amended): during dispatch, a response body that fails to
parse as JSON and a parsed body carrying the `E000` error marker are each
treated as dispatch failure and leave the report in `pending_review` with a
non-empty `last_error` (the HTTP status code itself is not consulted for
success); an exception during the external call is answered with an
internal error and leaves the report in `approved_sending`. -/
theorem c1_dispatch_failure (env : FccEnv) (rid : String) (db : DbState)
    (report : Report) (m : MediaRow) (rest : List MediaRow)
    (ah email : String) (cfg : String × String × String)
    (h1 : env.authHeader = some ah) (h2 : env.userEmail = some email)
    (h3 : env.adminEntryExists = true) (h4 : rid ≠ "")
    (h5 : db.reports.find? (fun r => r.id = rid) = some report)
    (h6 : db.media.filter (fun x => x.report_id = rid) = m :: rest)
    (h7 : env.download m.storage_path = some ())
    (h8 : CATEGORY_MAP report.category = some cfg) :
    (∀ st text, env.fccResponse = some ⟨st, .raw text⟩ →
      (submitToFcc env (some rid) db).1 =
        .err ("FCC submission failed: " ++ jsSubstring text 200) 502 ∧
      ∃ r', (submitToFcc env (some rid) db).2.reports.find? (fun x => x.id = rid) = some r' ∧
        r'.status = .pending_review ∧
        ∃ msg, r'.last_error = some msg ∧ msg ≠ "") ∧
    (∀ st o, env.fccResponse = some ⟨st, .json o⟩ → o.id = some "E000" →
      (submitToFcc env (some rid) db).1 =
        .err ("FCC submission failed: " ++ jsInterp o.name) 502 ∧
      ∃ r', (submitToFcc env (some rid) db).2.reports.find? (fun x => x.id = rid) = some r' ∧
        r'.status = .pending_review ∧
        ∃ msg, r'.last_error = some msg ∧ msg ≠ "") ∧
    (env.fccResponse = none →
      (submitToFcc env (some rid) db).1 = .err "Internal server error" 500 ∧
      ∃ r', (submitToFcc env (some rid) db).2.reports.find? (fun x => x.id = rid) = some r' ∧
        r'.status = .approved_sending) := by
  have hload := submitToFcc_afterLoad env rid db report m rest ah email cfg h1 h2 h3 h4 h5 h6 h7 h8
  have u1 := find?_update db.reports rid
    (fun r => { r with status := .approved_sending }) (fun x => rfl) report h5
  refine ⟨?_, ?_, ?_⟩
  · intro st text hresp
    rw [hload, hresp]
    dsimp only
    have u2 := find?_update _ rid
      (fun r => { r with status := .pending_review,
                         last_error := some ("FCC error (" ++ toString st ++
                           "): " ++ jsSubstring text 200) })
      (fun x => rfl) _ u1
    refine ⟨rfl, _, u2, rfl, _, rfl, ?_⟩
    apply append_ne_empty_left
    rw [String.length_append, String.length_append]
    have hl : "FCC error (".length = 11 := rfl
    omega
  · intro st o hresp hid
    rw [hload, hresp]
    dsimp only
    rw [if_pos hid]
    have u2 := find?_update _ rid
      (fun r => { r with status := .pending_review,
                         last_error := some ("FCC error: " ++
                           jsOrDefault o.name (jsonStringifyFcc o)) })
      (fun x => rfl) _ u1
    refine ⟨rfl, _, u2, rfl, _, rfl, ?_⟩
    apply append_ne_empty_left
    have hl : "FCC error: ".length = 11 := rfl
    omega
  · intro hresp
    rw [hload, hresp]
    exact ⟨rfl, _, u1, rfl⟩

/-- Witness for claim C1 (amended): a non-JSON body, an `E000` body, and a
thrown fetch, each at a concrete dispatch of report `r1`. -/
theorem c1_witness :
    ((submitToFcc (mkFccEnv (some ⟨500, .raw "boom"⟩)) (some "r1") dbC4).1 =
        .err ("FCC submission failed: " ++ jsSubstring "boom" 200) 502 ∧
      ∃ r', (submitToFcc (mkFccEnv (some ⟨500, .raw "boom"⟩))
          (some "r1") dbC4).2.reports.find? (fun x => x.id = "r1") = some r' ∧
        r'.status = .pending_review ∧ ∃ msg, r'.last_error = some msg ∧ msg ≠ "") ∧
    ((submitToFcc (mkFccEnv (some ⟨200, .json ⟨some "E000", some "bad", none, none⟩⟩))
        (some "r1") dbC4).1 = .err ("FCC submission failed: " ++ jsInterp (some "bad")) 502 ∧
      ∃ r', (submitToFcc (mkFccEnv (some ⟨200, .json ⟨some "E000", some "bad", none, none⟩⟩))
          (some "r1") dbC4).2.reports.find? (fun x => x.id = "r1") = some r' ∧
        r'.status = .pending_review ∧ ∃ msg, r'.last_error = some msg ∧ msg ≠ "") ∧
    ((submitToFcc (mkFccEnv none) (some "r1") dbC4).1 = .err "Internal server error" 500 ∧
      ∃ r', (submitToFcc (mkFccEnv none)
          (some "r1") dbC4).2.reports.find? (fun x => x.id = "r1") = some r' ∧
        r'.status = .approved_sending) := by
  have ha := c1_dispatch_failure (mkFccEnv (some ⟨500, .raw "boom"⟩))
    "r1" dbC4 (mkTestReport "r1" .pending_review) (mkMediaRow "r1" "r1/0.jpg") []
    "Bearer tok" "admin@example.com" ("008", "202", "000")
    rfl rfl rfl (by decide) rfl rfl rfl rfl
  have hb := c1_dispatch_failure (mkFccEnv (some ⟨200, .json ⟨some "E000", some "bad", none, none⟩⟩))
    "r1" dbC4 (mkTestReport "r1" .pending_review) (mkMediaRow "r1" "r1/0.jpg") []
    "Bearer tok" "admin@example.com" ("008", "202", "000")
    rfl rfl rfl (by decide) rfl rfl rfl rfl
  have hc := c1_dispatch_failure (mkFccEnv none)
    "r1" dbC4 (mkTestReport "r1" .pending_review) (mkMediaRow "r1" "r1/0.jpg") []
    "Bearer tok" "admin@example.com" ("008", "202", "000")
    rfl rfl rfl (by decide) rfl rfl rfl rfl
  exact ⟨ha.1 500 "boom" rfl, hb.2.1 200 ⟨some "E000", some "bad", none, none⟩ rfl rfl,
    hc.2.2 rfl⟩

/-- Claim C2 counterexample: dispatching a `rejected` report does not fail
with an invalid-transition error — it succeeds and advances the report to
`sent`. -/
theorem c2_counterexample :
    (submitToFcc (mkFccEnv (some ⟨200, .json ⟨none, none, some "777", none⟩⟩))
      (some "r2") dbC2).1 = .ok (some "777") ∧
    (submitToFcc (mkFccEnv (some ⟨200, .json ⟨none, none, some "777", none⟩⟩))
      (some "r2") dbC2).2.reports.map Report.status = [.sent] := by
  exact ⟨rfl, rfl⟩

/-- Claim C2 (amended): the dispatch handler has no status guard — it
checks only that the report exists, transitions it to `approved_sending`
unconditionally, and a `rejected` or `deleted` report is dispatched
exactly like a pending one: with a marker-free JSON response it returns
success (never an invalid-transition error) and the report ends in
`sent`. -/
theorem c2_no_status_guard (env : FccEnv) (rid : String) (db : DbState)
    (report : Report) (m : MediaRow) (rest : List MediaRow)
    (ah email : String) (cfg : String × String × String) (o : FccObj) (st : ℕ)
    (h1 : env.authHeader = some ah) (h2 : env.userEmail = some email)
    (h3 : env.adminEntryExists = true) (h4 : rid ≠ "")
    (h5 : db.reports.find? (fun r => r.id = rid) = some report)
    (h6 : db.media.filter (fun x => x.report_id = rid) = m :: rest)
    (h7 : env.download m.storage_path = some ())
    (h8 : CATEGORY_MAP report.category = some cfg)
    (h9 : env.fccResponse = some ⟨st, .json o⟩)
    (h10 : ¬ o.id = some "E000")
    (hstat : report.status = .rejected ∨ report.status = .deleted) :
    (∀ e s, (submitToFcc env (some rid) db).1 ≠ .err e s) ∧
    (submitToFcc env (some rid) db).1 = .ok (jsOrOpt o.altainc (jsOrOpt o.resultado none)) ∧
    ∃ r', (submitToFcc env (some rid) db).2.reports.find? (fun x => x.id = rid) = some r' ∧
      r'.status = .sent := by
  rw [submitToFcc_afterLoad env rid db report m rest ah email cfg h1 h2 h3 h4 h5 h6 h7 h8, h9]
  dsimp only
  rw [if_neg h10]
  have u1 := find?_update db.reports rid
    (fun r => { r with status := .approved_sending }) (fun x => rfl) report h5
  have u2 := find?_update _ rid
    (fun r => { r with status := .sent,
                       fcc_incident_id := jsOrOpt o.altainc (jsOrOpt o.resultado none),
                       sent_at := some env.now, last_error := none })
    (fun x => rfl) _ u1
  exact ⟨fun e s hc => FccResp.noConfusion hc, rfl, _, u2, rfl⟩

/-- Witness for claim C2 (amended): a concrete `deleted` report is
dispatched with success and ends in `sent`, with no invalid-transition
error possible. -/
theorem c2_witness :
    (∀ e s, (submitToFcc (mkFccEnv (some ⟨200, .json ⟨none, none, some "5", none⟩⟩))
      (some "r3") dbC2d).1 ≠ .err e s) ∧
    (submitToFcc (mkFccEnv (some ⟨200, .json ⟨none, none, some "5", none⟩⟩))
      (some "r3") dbC2d).1 = .ok (some "5") ∧
    ∃ r', (submitToFcc (mkFccEnv (some ⟨200, .json ⟨none, none, some "5", none⟩⟩))
        (some "r3") dbC2d).2.reports.find? (fun x => x.id = "r3") = some r' ∧
      r'.status = .sent := by
  have h := c2_no_status_guard (mkFccEnv (some ⟨200, .json ⟨none, none, some "5", none⟩⟩))
    "r3" dbC2d (mkTestReport "r3" .deleted) (mkMediaRow "r3" "r3/0.jpg") []
    "Bearer tok" "admin@example.com" ("008", "202", "000")
    ⟨none, none, some "5", none⟩ 200
    rfl rfl rfl (by decide) rfl rfl rfl rfl rfl (by decide) (Or.inr rfl)
  exact ⟨h.1, h.2.1.trans rfl, h.2.2⟩

/-- The haversine distance from a point to itself is zero. -/
theorem haversine_self (lat lon : ℝ) : haversineDistance lat lon lat lon = 0 := by
  unfold haversineDistance toRad atan2
  simp [Real.sqrt_zero, Real.sqrt_one, Real.arctan_zero]

/-- The haversine expression for two points on the same latitude whose
longitudes differ by 180 degrees. -/
theorem haversine_eq_lat (lat lon : ℝ) :
    haversineDistance lat (lon - 180) lat lon =
      6371000 * 2 * atan2 (Real.sqrt (Real.cos (toRad lat) * Real.cos (toRad lat)))
        (Real.sqrt (1 - Real.cos (toRad lat) * Real.cos (toRad lat))) := by
  unfold haversineDistance
  dsimp only
  have ht0 : toRad (lat - lat) = 0 := by unfold toRad; ring
  have ht180 : toRad (lon - (lon - 180)) = Real.pi := by unfold toRad; ring
  rw [ht0, ht180, zero_div, Real.sin_zero, Real.sin_pi_div_two]
  have harg : (0:ℝ) ^ 2 + Real.cos (toRad lat) * Real.cos (toRad lat) * 1 ^ 2 =
      Real.cos (toRad lat) * Real.cos (toRad lat) := by ring
  rw [harg]

/-- Core bound: at a latitude whose radian measure lies in `(0, π/4)`, the
two antipodal-longitude points of `haversine_eq_lat` are farther apart than
5000 m. -/
theorem far_core (r : ℝ) (hr0 : 0 < r) (hrq : r < Real.pi / 4) :
    (5000:ℝ) < 6371000 * 2 * atan2 (Real.sqrt (Real.cos r * Real.cos r))
      (Real.sqrt (1 - Real.cos r * Real.cos r)) := by
  have hπ := Real.pi_gt_three
  have hπ0 := Real.pi_pos
  have hs0 : 0 < Real.sin r := Real.sin_pos_of_pos_of_lt_pi hr0 (by nlinarith)
  have hc0 : 0 < Real.cos r := Real.cos_pos_of_mem_Ioo ⟨by nlinarith, by nlinarith⟩
  have hsc : Real.sin r < Real.cos r := by
    have h1 : Real.sin r < Real.sin (Real.pi / 4) :=
      Real.strictMonoOn_sin ⟨by nlinarith, by nlinarith⟩ ⟨by nlinarith, by nlinarith⟩ hrq
    have h2 : Real.cos (Real.pi / 4) < Real.cos r :=
      Real.cos_lt_cos_of_nonneg_of_le_pi hr0.le (by nlinarith) hrq
    rw [Real.sin_pi_div_four] at h1
    rw [Real.cos_pi_div_four] at h2
    linarith
  have hsq1 : Real.sqrt (Real.cos r * Real.cos r) = Real.cos r := Real.sqrt_mul_self hc0.le
  have hpyth : 1 - Real.cos r * Real.cos r = Real.sin r * Real.sin r := by
    have hh := Real.sin_sq_add_cos_sq r
    nlinarith [hh]
  have hsq2 : Real.sqrt (1 - Real.cos r * Real.cos r) = Real.sin r := by
    rw [hpyth]
    exact Real.sqrt_mul_self hs0.le
  rw [hsq1, hsq2]
  unfold atan2
  rw [if_pos hs0]
  have hdiv : 1 < Real.cos r / Real.sin r := (one_lt_div hs0).mpr hsc
  have harc : Real.pi / 4 < Real.arctan (Real.cos r / Real.sin r) := by
    have hmono := Real.arctan_strictMono hdiv
    rwa [Real.arctan_one] at hmono
  nlinarith [harc]

/-- The point at Girona's latitude and the antipodal longitude is outside
the service radius. -/
theorem haversine_far :
    SERVICE_RADIUS_M < haversineDistance GIRONA_LAT (GIRONA_LON - 180) GIRONA_LAT GIRONA_LON := by
  rw [haversine_eq_lat]
  unfold SERVICE_RADIUS_M
  apply far_core
  · unfold toRad GIRONA_LAT
    exact div_pos (mul_pos (by norm_num) Real.pi_pos) (by norm_num)
  · unfold toRad GIRONA_LAT
    nlinarith [Real.pi_pos]

/-- Reduction of `createReport` for a valid, honeypot-free, in-area request
that passes the rate limit and whose report insert succeeds: the report row
is appended and the outcome is determined by the signed-URL loop. -/
theorem createReport_admitted (env : CREnv) (req : CreateReq) (db : DbState)
    (lat lon : ℝ) (pc : ℤ) (c : String) (rid : String)
    (hhp : jsTruthy req.honeypot = false)
    (hlat : req.lat = some lat) (hlat1 : -90 ≤ lat) (hlat2 : lat ≤ 90)
    (hlon : req.lon = some lon) (hlon1 : -180 ≤ lon) (hlon2 : lon ≤ 180)
    (hpc : req.photo_count = some pc) (hpc1 : 1 ≤ pc) (hpc2 : pc ≤ MAX_PHOTOS)
    (hcat : req.category = some c) (hc : c = "waste" ∨ c = "litter")
    (hin : haversineDistance lat lon GIRONA_LAT GIRONA_LON ≤ SERVICE_RADIUS_M)
    (hcount : recentCount env db < RATE_LIMIT_PER_HOUR)
    (hins : env.insertedId = some rid) :
    createReport env req db =
      (match (signLoop env rid pc.toNat 0).2 with
       | none => .err "Failed to generate upload URL" 500
       | some urls => .ok rid urls,
       { reports := db.reports ++ [mkNewReport env req rid lat lon c],
         media := db.media ++ (signLoop env rid pc.toNat 0).1 }) := by
  unfold createReport
  rw [hhp, if_neg (fun hx => Bool.noConfusion hx), hlat]
  dsimp only
  rw [if_neg (not_or.mpr ⟨not_lt.mpr hlat1, not_lt.mpr hlat2⟩), hlon]
  dsimp only
  rw [if_neg (not_or.mpr ⟨not_lt.mpr hlon1, not_lt.mpr hlon2⟩), hpc]
  dsimp only
  rw [if_neg (not_or.mpr ⟨not_lt.mpr hpc1, not_lt.mpr hpc2⟩), hcat]
  dsimp only
  rw [if_neg (fun hn => hc.elim (fun hx => hn.1 hx) (fun hx => hn.2 hx))]
  rw [decide_eq_true hin, if_neg (fun hn => hn rfl)]
  rw [if_neg (not_le.mpr hcount), hins]
  dsimp only
  cases (signLoop env rid pc.toNat 0).2 <;> rfl

/-- Reduction of `createReport` for a valid, honeypot-free request whose
distance exceeds the service radius: geofence rejection, database
untouched. -/
theorem createReport_geofenced (env : CREnv) (req : CreateReq) (db : DbState)
    (lat lon : ℝ) (pc : ℤ) (c : String)
    (hhp : jsTruthy req.honeypot = false)
    (hlat : req.lat = some lat) (hlat1 : -90 ≤ lat) (hlat2 : lat ≤ 90)
    (hlon : req.lon = some lon) (hlon1 : -180 ≤ lon) (hlon2 : lon ≤ 180)
    (hpc : req.photo_count = some pc) (hpc1 : 1 ≤ pc) (hpc2 : pc ≤ MAX_PHOTOS)
    (hcat : req.category = some c) (hc : c = "waste" ∨ c = "litter")
    (hout : SERVICE_RADIUS_M < haversineDistance lat lon GIRONA_LAT GIRONA_LON) :
    createReport env req db =
      (.err "Location is outside the Girona service area" 400, db) := by
  unfold createReport
  rw [hhp, if_neg (fun hx => Bool.noConfusion hx), hlat]
  dsimp only
  rw [if_neg (not_or.mpr ⟨not_lt.mpr hlat1, not_lt.mpr hlat2⟩), hlon]
  dsimp only
  rw [if_neg (not_or.mpr ⟨not_lt.mpr hlon1, not_lt.mpr hlon2⟩), hpc]
  dsimp only
  rw [if_neg (not_or.mpr ⟨not_lt.mpr hpc1, not_lt.mpr hpc2⟩), hcat]
  dsimp only
  rw [if_neg (fun hn => hc.elim (fun hx => hn.1 hx) (fun hx => hn.2 hx))]
  rw [decide_eq_false (not_le.mpr hout), if_pos (fun hx => Bool.noConfusion hx)]

/-- Claim C6: a request with a non-empty honeypot field, whatever its other
fields, receives a success envelope with the freshly generated identifier
and an empty capability list, and neither a report row nor a media row is
persisted. -/
theorem c6_honeypot (env : CREnv) (req : CreateReq) (db : DbState)
    (h : jsTruthy req.honeypot = true) :
    createReport env req db = (.ok env.uuid [], db) := by
  unfold createReport
  rw [h, if_pos rfl]

/-- Witness for claim C6: a concrete bot submission with invalid fields is
answered with a success envelope and an untouched database. -/
theorem c6_witness :
    jsTruthy reqC6.honeypot = true ∧
    createReport envC6 reqC6 db0 = (.ok "hp-uuid" [], db0) := by
  exact ⟨by decide, c6_honeypot envC6 reqC6 db0 (by decide)⟩

/-- Claim C5: for a valid, honeypot-free admission request, if the
haversine distance to the reference point exceeds the service radius the
request is rejected with the geofence error and the database is untouched;
if it is within the radius and the request is admitted (rate limit passed,
insert succeeded), the persisted report row has `inside_service_area` true
and `distance_to_girona_m` equal to the rounded haversine distance. -/
theorem c5_geofence (env : CREnv) (req : CreateReq) (db : DbState)
    (lat lon : ℝ) (pc : ℤ) (c : String)
    (hhp : jsTruthy req.honeypot = false)
    (hlat : req.lat = some lat) (hlat1 : -90 ≤ lat) (hlat2 : lat ≤ 90)
    (hlon : req.lon = some lon) (hlon1 : -180 ≤ lon) (hlon2 : lon ≤ 180)
    (hpc : req.photo_count = some pc) (hpc1 : 1 ≤ pc) (hpc2 : pc ≤ MAX_PHOTOS)
    (hcat : req.category = some c) (hc : c = "waste" ∨ c = "litter") :
    (SERVICE_RADIUS_M < haversineDistance lat lon GIRONA_LAT GIRONA_LON →
      createReport env req db =
        (.err "Location is outside the Girona service area" 400, db)) ∧
    (haversineDistance lat lon GIRONA_LAT GIRONA_LON ≤ SERVICE_RADIUS_M →
      ∀ rid, recentCount env db < RATE_LIMIT_PER_HOUR → env.insertedId = some rid →
        ∃ r', (createReport env req db).2.reports = db.reports ++ [r'] ∧
          r'.inside_service_area = true ∧
          r'.distance_to_girona_m =
            jsRound (haversineDistance lat lon GIRONA_LAT GIRONA_LON)) := by
  constructor
  · intro hout
    exact createReport_geofenced env req db lat lon pc c hhp hlat hlat1 hlat2
      hlon hlon1 hlon2 hpc hpc1 hpc2 hcat hc hout
  · intro hin rid hcount hins
    rw [createReport_admitted env req db lat lon pc c rid hhp hlat hlat1 hlat2
      hlon hlon1 hlon2 hpc hpc1 hpc2 hcat hc hin hcount hins]
    exact ⟨mkNewReport env req rid lat lon c, rfl, decide_eq_true hin, rfl⟩

/-- Witness for claim C5: the antipodal-longitude request is rejected by
the geofence leaving the database empty, and the request at the reference
point itself is admitted with `inside_service_area = true` and a stored
distance of 0 m. -/
theorem c5_witness :
    createReport envC5 reqC5far db0 =
      (.err "Location is outside the Girona service area" 400, db0) ∧
    (∃ r', (createReport envC5 reqC5near db0).2.reports = [] ++ [r'] ∧
      r'.inside_service_area = true ∧
      r'.distance_to_girona_m =
        jsRound (haversineDistance GIRONA_LAT GIRONA_LON GIRONA_LAT GIRONA_LON)) ∧
    jsRound (haversineDistance GIRONA_LAT GIRONA_LON GIRONA_LAT GIRONA_LON) = 0 := by
  have hlat1 : (-90:ℝ) ≤ GIRONA_LAT := by unfold GIRONA_LAT; norm_num
  have hlat2 : GIRONA_LAT ≤ (90:ℝ) := by unfold GIRONA_LAT; norm_num
  have hfar := c5_geofence envC5 reqC5far db0 GIRONA_LAT (GIRONA_LON - 180) 1 "waste"
    rfl rfl hlat1 hlat2 rfl (by unfold GIRONA_LON; norm_num) (by unfold GIRONA_LON; norm_num)
    rfl (by decide) (by decide) rfl (Or.inl rfl)
  have hnear := c5_geofence envC5 reqC5near db0 GIRONA_LAT GIRONA_LON 1 "litter"
    rfl rfl hlat1 hlat2 rfl (by unfold GIRONA_LON; norm_num) (by unfold GIRONA_LON; norm_num)
    rfl (by decide) (by decide) rfl (Or.inr rfl)
  have hin : haversineDistance GIRONA_LAT GIRONA_LON GIRONA_LAT GIRONA_LON ≤ SERVICE_RADIUS_M := by
    rw [haversine_self]
    unfold SERVICE_RADIUS_M
    norm_num
  refine ⟨hfar.1 haversine_far, hnear.2 hin "r5" (by decide) rfl, ?_⟩
  rw [haversine_self]
  unfold jsRound
  exact Int.floor_eq_iff.mpr ⟨by norm_num, by norm_num⟩

/-- Claim C3 counterexample: with the second signed-URL issuance failing on
a valid two-photo admission, the caller gets the 500 error but the report
row and the first media placeholder remain persisted — admission is not
atomic. -/
theorem c3_counterexample :
    (createReport envC3 reqC3 db0).1 = .err "Failed to generate upload URL" 500 ∧
    (createReport envC3 reqC3 db0).2.reports.length = 1 ∧
    (createReport envC3 reqC3 db0).2.media = [mkMediaRow "r1" "r1/0.jpg"] := by
  have h := createReport_admitted envC3 reqC3 db0 GIRONA_LAT GIRONA_LON 2 "waste" "r1"
    rfl rfl (by unfold GIRONA_LAT; norm_num) (by unfold GIRONA_LAT; norm_num)
    rfl (by unfold GIRONA_LON; norm_num) (by unfold GIRONA_LON; norm_num)
    rfl (by decide) (by decide) rfl (Or.inl rfl)
    (by rw [haversine_self]; unfold SERVICE_RADIUS_M; norm_num)
    (by decide) rfl
  rw [h]
  exact ⟨rfl, rfl, rfl⟩

/-- Claim C3 (amended): if issuing any upload capability fails, the whole
admission fails with the surfaced 500 error, but persistence is not
atomic — the already-inserted report row remains, together with the media
placeholder rows created before the failing capability. -/
theorem c3_capability_failure (env : CREnv) (req : CreateReq) (db : DbState)
    (lat lon : ℝ) (pc : ℤ) (c : String) (rid : String)
    (hhp : jsTruthy req.honeypot = false)
    (hlat : req.lat = some lat) (hlat1 : -90 ≤ lat) (hlat2 : lat ≤ 90)
    (hlon : req.lon = some lon) (hlon1 : -180 ≤ lon) (hlon2 : lon ≤ 180)
    (hpc : req.photo_count = some pc) (hpc1 : 1 ≤ pc) (hpc2 : pc ≤ MAX_PHOTOS)
    (hcat : req.category = some c) (hc : c = "waste" ∨ c = "litter")
    (hin : haversineDistance lat lon GIRONA_LAT GIRONA_LON ≤ SERVICE_RADIUS_M)
    (hcount : recentCount env db < RATE_LIMIT_PER_HOUR)
    (hins : env.insertedId = some rid)
    (hfail : (signLoop env rid pc.toNat 0).2 = none) :
    (createReport env req db).1 = .err "Failed to generate upload URL" 500 ∧
    (createReport env req db).2.reports = db.reports ++ [mkNewReport env req rid lat lon c] ∧
    (createReport env req db).2.media = db.media ++ (signLoop env rid pc.toNat 0).1 := by
  rw [createReport_admitted env req db lat lon pc c rid hhp hlat hlat1 hlat2
    hlon hlon1 hlon2 hpc hpc1 hpc2 hcat hc hin hcount hins, hfail]
  exact ⟨rfl, rfl, rfl⟩

/-- Witness for claim C3 (amended): the concrete failing-second-capability
admission, with the persisted report row and the single media placeholder
exhibited. -/
theorem c3_witness :
    (createReport envC3 reqC3 db0).1 = .err "Failed to generate upload URL" 500 ∧
    (createReport envC3 reqC3 db0).2.reports =
      [] ++ [mkNewReport envC3 reqC3 "r1" GIRONA_LAT GIRONA_LON "waste"] ∧
    (createReport envC3 reqC3 db0).2.media = [] ++ (signLoop envC3 "r1" (2:ℤ).toNat 0).1 := by
  exact c3_capability_failure envC3 reqC3 db0 GIRONA_LAT GIRONA_LON 2 "waste" "r1"
    rfl rfl (by unfold GIRONA_LAT; norm_num) (by unfold GIRONA_LAT; norm_num)
    rfl (by unfold GIRONA_LON; norm_num) (by unfold GIRONA_LON; norm_num)
    rfl (by decide) (by decide) rfl (Or.inl rfl)
    (by rw [haversine_self]; unfold SERVICE_RADIUS_M; norm_num)
    (by decide) rfl rfl

end GiroTrash
